import Mathlib

set_option linter.unusedVariables false

/-!
# Verification of `rpbp/reference_preprocessing/prepare_genome.py`

A shallow embedding of the genome-preparation pipeline driver and its
conditional-execution model.  The driver (`main`) is translated from
`src/rpbp/reference_preprocessing/prepare_genome.py`.  The helper functions
`utils.call_if_not_exists`, `utils.check_programs_exist`,
`utils.check_keys_exist` and `slurm.check_sbatch` live in the external
`misc` package, whose source is not part of this repository; they are
modelled from the specification (sections 4.1 - 4.4).

The filesystem is modelled as a list of existing path names.  Subprocess
behaviour is an oracle (`World`): each command string has an exit status
and an effect on the filesystem.
-/

namespace PrepareGenome

/-- A value stored in the YAML configuration mapping.  Required keys hold
path strings; optional keys may hold any value, including booleans and
null (Python `None`). -/
inductive ConfigVal where
  | str (s : String)
  | bool (b : Bool)
  | null
  deriving DecidableEq, Repr

/-- Python `str()` applied to a configuration value, as used by
`"...".format(...)` when building command strings. -/
def ConfigVal.toStr : ConfigVal → String
  | .str s => s
  | .bool true => "True"
  | .bool false => "False"
  | .null => "None"

/-- The loaded YAML configuration: a mapping from string keys to values,
modelled as an association list (first binding wins, as in a dict). -/
def Config := List (String × ConfigVal)

/-- Python `key in config`: key presence, regardless of the stored value. -/
def Config.hasKey (c : Config) (k : String) : Bool :=
  c.any (fun p => p.1 == k)

/-- Python `config.get(key)`: the stored value, or none when absent. -/
def Config.get (c : Config) (k : String) : Option ConfigVal :=
  (c.find? (fun p => p.1 == k)).map (fun p => p.2)

/-- Python `config[key]` rendered into a command string.  After
`check_keys_exist` has validated the required keys this never falls through
to the default (in Python a missing key would raise `KeyError` instead). -/
def Config.getStr (c : Config) (k : String) : String :=
  match c.get k with
  | some v => v.toStr
  | none => ""

/-- The world the subprocess oracle lives in: the set of existing paths,
the exit status each command would return, and the filesystem effect of
running a command. -/
structure World where
  fs : List String
  exit_status : String → Nat
  run_effect : String → List String → List String

/-- Outcome of a successful call of the conditional executor. -/
inductive Outcome where
  | skipped
  | planned
  | executed
  deriving DecidableEq, Repr

/-- Fatal errors of the conditional executor (spec section 7). -/
inductive ExecErr where
  | executionError (command : String) (exit_status : Nat)
  | missingOutputError (command : String) (missing_paths : List String)
  deriving DecidableEq, Repr

/-- Result of one call of the conditional executor: the outcome or fatal
error, the world afterwards, and whether the subprocess was invoked. -/
structure ExecResult where
  result : Except ExecErr Outcome
  world : World
  invoked : Bool

/-- The skip decision (spec section 3, "Execution Decision"): skip exactly
when the overwrite flag is false and every declared output exists. -/
def skip_decision (fs : List String) (out_files : List String) (overwrite : Bool) : Bool :=
  !overwrite && out_files.all (fun p => fs.contains p)

/-- Modelled from the spec: `misc.utils.call_if_not_exists` is not under
`src/` (only its call sites in `prepare_genome.py` are).  Behaviour steps
1-5 of spec section 4.1: skip when outputs exist and overwrite is false;
otherwise, when `call` is false, only plan; otherwise run the subprocess,
fail with `executionError` on a non-zero exit status, then fail with
`missingOutputError` when a declared output is still absent.  The declared
inputs are not consulted by the executor (spec section 4.1 preconditions). -/
def call_if_not_exists (w : World) (cmd : String) (out_files : List String)
    (in_files : List String) (overwrite : Bool) (call : Bool) : ExecResult :=
  if skip_decision w.fs out_files overwrite then
    ⟨.ok .skipped, w, false⟩
  else if !call then
    ⟨.ok .planned, w, false⟩
  else
    let status := w.exit_status cmd
    let fs' := w.run_effect cmd w.fs
    if status = 0 then
      let missing := out_files.filter (fun p => !fs'.contains p)
      if missing.isEmpty then
        ⟨.ok .executed, { w with fs := fs' }, true⟩
      else
        ⟨.error (.missingOutputError cmd missing), { w with fs := fs' }, true⟩
    else
      ⟨.error (.executionError cmd status), { w with fs := fs' }, true⟩

/-- C1: if every declared output exists and the overwrite flag is false,
the executor emits a skipped outcome and the command is not invoked. -/
theorem skip_when_outputs_exist (w : World) (cmd : String)
    (out_files in_files : List String) (call : Bool)
    (h : ∀ p ∈ out_files, w.fs.contains p = true) :
    (call_if_not_exists w cmd out_files in_files false call).result = .ok .skipped ∧
    (call_if_not_exists w cmd out_files in_files false call).invoked = false := by
  have hskip : skip_decision w.fs out_files false = true := by
    simp only [skip_decision, Bool.not_false, Bool.true_and, List.all_eq_true]
    exact h
  simp [call_if_not_exists, hskip]

/-- Witness for C1 at a concrete world whose filesystem holds both outputs. -/
theorem skip_when_outputs_exist_witness :
    (call_if_not_exists ⟨["a", "b"], fun _ => 0, fun _ fs => fs⟩ "cmd" ["a", "b"]
      [] false true).result = .ok .skipped ∧
    (call_if_not_exists ⟨["a", "b"], fun _ => 0, fun _ fs => fs⟩ "cmd" ["a", "b"]
      [] false true).invoked = false :=
  skip_when_outputs_exist ⟨["a", "b"], fun _ => 0, fun _ fs => fs⟩ "cmd"
    ["a", "b"] [] true (by decide)

/-- C2: the exit-status check precedes the output-existence check.  An
executed stage whose subprocess exits non-zero fails with
`executionError` (never `missingOutputError`); an executed stage whose
subprocess exits zero but leaves a declared output absent fails with
`missingOutputError` carrying the missing paths. -/
theorem exit_status_checked_before_outputs
    (w₁ w₂ : World) (cmd₁ cmd₂ : String) (outs₁ outs₂ ins₁ ins₂ : List String)
    (ow₁ ow₂ : Bool)
    (hskip₁ : skip_decision w₁.fs outs₁ ow₁ = false)
    (hskip₂ : skip_decision w₂.fs outs₂ ow₂ = false)
    (hnz : w₁.exit_status cmd₁ ≠ 0)
    (hz : w₂.exit_status cmd₂ = 0)
    (hmiss : outs₂.filter (fun p => !(w₂.run_effect cmd₂ w₂.fs).contains p) ≠ []) :
    (call_if_not_exists w₁ cmd₁ outs₁ ins₁ ow₁ true).result
        = .error (.executionError cmd₁ (w₁.exit_status cmd₁)) ∧
    (call_if_not_exists w₂ cmd₂ outs₂ ins₂ ow₂ true).result
        = .error (.missingOutputError cmd₂
            (outs₂.filter (fun p => !(w₂.run_effect cmd₂ w₂.fs).contains p))) := by
  constructor
  · simp only [call_if_not_exists, hskip₁, Bool.false_eq_true, if_false,
      Bool.not_true, if_neg hnz]
  · have hne : (outs₂.filter (fun p => !(w₂.run_effect cmd₂ w₂.fs).contains p)).isEmpty
        = false := by
      cases hfil : outs₂.filter (fun p => !(w₂.run_effect cmd₂ w₂.fs).contains p) with
      | nil => exact absurd hfil hmiss
      | cons a l => rfl
    simp only [call_if_not_exists, hskip₂, Bool.false_eq_true, if_false,
      Bool.not_true, if_pos hz, hne]

/-- Witness for C2: one world whose subprocess exits with status 1, one
whose subprocess exits 0 without creating the declared output. -/
theorem exit_status_checked_before_outputs_witness :
    skip_decision (World.fs ⟨[], fun _ => 1, fun _ fs => fs⟩) ["x"] false = false ∧
    skip_decision (World.fs ⟨[], fun _ => 0, fun _ fs => fs⟩) ["y"] false = false ∧
    (call_if_not_exists ⟨[], fun _ => 1, fun _ fs => fs⟩ "c1" ["x"] [] false true).result
        = .error (.executionError "c1" 1) ∧
    (call_if_not_exists ⟨[], fun _ => 0, fun _ fs => fs⟩ "c2" ["y"] [] false true).result
        = .error (.missingOutputError "c2" ["y"]) :=
  ⟨by decide, by decide,
    (exit_status_checked_before_outputs ⟨[], fun _ => 1, fun _ fs => fs⟩
      ⟨[], fun _ => 0, fun _ fs => fs⟩ "c1" "c2" ["x"] ["y"] [] [] false false
      (by decide) (by decide) (by decide) (by decide) (by decide)).1,
    (exit_status_checked_before_outputs ⟨[], fun _ => 1, fun _ fs => fs⟩
      ⟨[], fun _ => 0, fun _ fs => fs⟩ "c1" "c2" ["x"] ["y"] [] [] false false
      (by decide) (by decide) (by decide) (by decide) (by decide)).2⟩

/-- C3: with the overwrite flag set, the executor invokes the command
regardless of whether the declared outputs already exist (whenever the
dry-run flag is not set, i.e. `call` is true). -/
theorem overwrite_forces_invocation (w : World) (cmd : String)
    (outs ins : List String) (call : Bool) (hc : call = true) :
    (call_if_not_exists w cmd outs ins true call).invoked = true := by
  subst hc
  simp only [call_if_not_exists, skip_decision, Bool.not_true, Bool.false_and,
    Bool.false_eq_true, if_false, Bool.not_false]
  split
  · split
    · rfl
    · rfl
  · rfl

/-- Witness for C3 at a world where every declared output already exists. -/
theorem overwrite_forces_invocation_witness :
    (call_if_not_exists ⟨["a"], fun _ => 0, fun _ fs => fs⟩ "cmd" ["a"] [] true
      true).invoked = true :=
  overwrite_forces_invocation ⟨["a"], fun _ => 0, fun _ fs => fs⟩ "cmd" ["a"] []
    true rfl

/-- Parsed command-line arguments of `prepare_genome.py` (spec section 6),
including the options added by `slurm.add_sbatch_options`.  `argv` models
the full process argument vector `sys.argv`. -/
structure Args where
  star_executable : String
  overwrite : Bool
  use_slurm : Bool
  do_not_call : Bool
  num_cpus : Nat
  mem : String
  argv : List String

/-- The out-of-scope glue collaborators of the driver (spec sections 1 and
6): path resolution of executables, the logging-options string derived
from the parsed arguments, `utils.human2bytes`, the index-file listers
from `misc.bio`, the canonical path derivations from
`riboutils.ribo_filenames`, and `utils.get_config_argument` for the
optional configuration keys. -/
structure Collab where
  resolvable : String → Bool
  logging_str : String
  human2bytes : String → Nat
  get_bowtie2_index_files : String → List String
  get_star_index_files : String → List String
  get_bed : String → String → Bool → String
  get_transcript_fasta : String → String → String
  get_orfs : String → String → Option ConfigVal → String
  get_exons : String → String → Option ConfigVal → String
  get_config_argument : Config → String → String

/-- Fatal errors of the driver (spec section 7). -/
inductive MainError where
  | missingExecutableError (name : String)
  | missingConfigKeyError (keys : List String)
  | execError (e : ExecErr)
  deriving DecidableEq, Repr

/-- Modelled from the spec: `misc.utils.check_programs_exist` is not under
`src/`.  Spec section 4.2: fails with `MissingExecutableError` reporting
an unresolvable name (here the first one, which satisfies the "must report
at least one" requirement). -/
def check_programs_exist (resolvable : String → Bool) (progs : List String) :
    Except MainError Unit :=
  match progs.find? (fun p => !resolvable p) with
  | some p => .error (.missingExecutableError p)
  | none => .ok ()

/-- Modelled from the spec: `misc.utils.check_keys_exist` is not under
`src/`.  Spec section 4.3: fails with `MissingConfigKeyError` listing
every absent key, not just the first. -/
def check_keys_exist (config : Config) (keys : List String) :
    Except MainError Unit :=
  let missing := keys.filter (fun k => !config.hasKey k)
  if missing.isEmpty then .ok () else .error (.missingConfigKeyError missing)

/-- The fixed program roster checked at startup (`prepare_genome.py`
lines 43-52); the last entry is the configurable STAR executable name. -/
def programs (args : Args) : List String :=
  ["extract-orfs", "bowtie2-build-s", "gffread", "intersectBed",
   "split-bed12-blocks", "gtf-to-bed12", args.star_executable]

/-- The required configuration keys (`prepare_genome.py` lines 55-62). -/
def required_keys : List String :=
  ["genome_base_path", "genome_name", "gtf", "fasta",
   "ribosomal_fasta", "ribosomal_index", "star_index"]

/-- Python `os.path.join(a, b)` for a relative second component. -/
def os_path_join (a b : String) : String :=
  if a = "" then b
  else if a.endsWith "/" then a ++ b
  else a ++ "/" ++ b

/-- `chrName.txt` inside the STAR index directory (line 71). -/
def chr_name_file (config : Config) : String :=
  os_path_join (config.getStr "star_index") "chrName.txt"

/-- The `--chr-name-file` option string (line 72). -/
def chr_name_str (config : Config) : String :=
  "--chr-name-file " ++ chr_name_file config

/-- The rRNA bowtie2 index command (lines 75-76). -/
def rrna_index_cmd (config : Config) : String :=
  "bowtie2-build-s " ++ config.getStr "ribosomal_fasta" ++ " "
    ++ config.getStr "ribosomal_index"

/-- The STAR genome index command (lines 84-87). -/
def star_index_cmd (args : Args) (config : Config) (c : Collab) : String :=
  args.star_executable ++ " --runMode genomeGenerate --genomeDir "
    ++ config.getStr "star_index" ++ " --genomeFastaFiles "
    ++ config.getStr "fasta" ++ " --runThreadN " ++ toString args.num_cpus
    ++ " --limitGenomeGenerateRAM " ++ toString (c.human2bytes args.mem)

/-- The transcript BED12 path (lines 95-96, `is_merged=False`). -/
def transcript_bed (config : Config) (c : Collab) : String :=
  c.get_bed (config.getStr "genome_base_path") (config.getStr "genome_name") false

/-- The GTF-to-BED12 conversion command (lines 98-99). -/
def gtf_to_bed12_cmd (args : Args) (config : Config) (c : Collab) : String :=
  "gtf-to-bed12 " ++ config.getStr "gtf" ++ " " ++ transcript_bed config c
    ++ " --num-cpus " ++ toString args.num_cpus ++ " " ++ chr_name_str config
    ++ " " ++ c.logging_str

/-- The transcript FASTA path (lines 106-107). -/
def transcript_fasta (config : Config) (c : Collab) : String :=
  c.get_transcript_fasta (config.getStr "genome_base_path")
    (config.getStr "genome_name")

/-- The first transcript-extraction command (lines 109-110): constructed,
but its executor call (lines 115-116) is commented out in the source. -/
def extract_bed_sequences_cmd (config : Config) (c : Collab) : String :=
  "extract-bed-sequences " ++ transcript_bed config c ++ " "
    ++ config.getStr "fasta" ++ " " ++ transcript_fasta config c ++ " "
    ++ c.logging_str

/-- The second transcript-extraction command (line 119), the one actually
submitted to the executor for the transcript FASTA output. -/
def gffread_cmd (config : Config) (c : Collab) : String :=
  "gffread -W -w " ++ transcript_fasta config c ++ " -g "
    ++ config.getStr "fasta" ++ " " ++ config.getStr "gtf"

/-- The genomic-coordinate ORF path (lines 125-126). -/
def orfs_genomic (config : Config) (c : Collab) : String :=
  c.get_orfs (config.getStr "genome_base_path") (config.getStr "genome_name")
    (config.get "orf_note")

/-- Lines 131-133: the flag string is non-empty exactly when the key
`ignore_parsing_errors` is present in the configuration mapping; the
stored value is never consulted. -/
def ignore_parsing_errors_str (config : Config) : String :=
  if config.hasKey "ignore_parsing_errors" then "--ignore-parsing-errors" else ""

/-- The ORF-extraction command (lines 135-136). -/
def extract_orfs_cmd (args : Args) (config : Config) (c : Collab) : String :=
  "extract-orfs " ++ transcript_fasta config c ++ " " ++ orfs_genomic config c
    ++ " " ++ c.logging_str ++ " --num-cpus " ++ toString args.num_cpus
    ++ " " ++ c.get_config_argument config "start_codons"
    ++ " " ++ c.get_config_argument config "stop_codons"
    ++ " " ++ c.get_config_argument config "novel_id_re"
    ++ " " ++ ignore_parsing_errors_str config

/-- The exon file path (lines 141-142). -/
def exons_file (config : Config) (c : Collab) : String :=
  c.get_exons (config.getStr "genome_base_path") (config.getStr "genome_name")
    (config.get "orf_note")

/-- The BED12 block-splitting command (lines 144-145). -/
def split_bed12_blocks_cmd (args : Args) (config : Config) (c : Collab) : String :=
  "split-bed12-blocks " ++ orfs_genomic config c ++ " " ++ exons_file config c
    ++ " --num-cpus " ++ toString args.num_cpus ++ " " ++ c.logging_str

/-- One stage specification handed to the conditional executor. -/
structure Stage where
  cmd : String
  out_files : List String
  in_files : List String
  deriving DecidableEq, Repr

/-- The fixed straight-line stage sequence of the driver (lines 74-148).
The `extract-bed-sequences` call (lines 115-116) is commented out in the
source, so the fourth stage submits the `gffread` command for the
transcript FASTA output. -/
def stageSpecs (args : Args) (config : Config) (c : Collab) : List Stage :=
  [ ⟨rrna_index_cmd config,
      c.get_bowtie2_index_files (config.getStr "ribosomal_index"),
      [config.getStr "ribosomal_fasta"]⟩,
    ⟨star_index_cmd args config c,
      c.get_star_index_files (config.getStr "star_index"),
      [config.getStr "fasta"]⟩,
    ⟨gtf_to_bed12_cmd args config c, [transcript_bed config c],
      [config.getStr "gtf"]⟩,
    ⟨gffread_cmd config c, [transcript_fasta config c],
      [config.getStr "gtf", config.getStr "fasta"]⟩,
    ⟨extract_orfs_cmd args config c, [orfs_genomic config c],
      [transcript_fasta config c]⟩,
    ⟨split_bed12_blocks_cmd args config c, [exons_file config c],
      [orfs_genomic config c]⟩ ]

/-- Submit the stages to the conditional executor in order, threading the
world through and stopping at the first fatal error.  Returns the stages
actually submitted, the final world, and the overall result. -/
def runStages (overwrite call : Bool) :
    World → List Stage → List Stage × World × Except MainError Unit
  | w, [] => ([], w, .ok ())
  | w, s :: rest =>
    let r := call_if_not_exists w s.cmd s.out_files s.in_files overwrite call
    match r.result with
    | .error e => ([s], r.world, .error (.execError e))
    | .ok _ =>
      let t := runStages overwrite call r.world rest
      (s :: t.1, t.2.1, t.2.2)

/-- What one run of the driver did: the sbatch command submitted to the
remote queue (if any), the stages submitted to the conditional executor,
the overall result, and the final world. -/
structure MainOutcome where
  dispatched : Option String
  submitted : List Stage
  result : Except MainError Unit
  world : World

/-- The driver `main` (`prepare_genome.py` lines 20-148): check the
program roster, validate the required configuration keys, dispatch the
joined argument vector to the remote queue when `--use-slurm` is set (and
return immediately), otherwise submit the six stages to the conditional
executor in order with `call = not args.do_not_call`. -/
def main (args : Args) (config : Config) (c : Collab) (w : World) : MainOutcome :=
  match check_programs_exist c.resolvable (programs args) with
  | .error e => ⟨none, [], .error e, w⟩
  | .ok _ =>
    match check_keys_exist config required_keys with
    | .error e => ⟨none, [], .error e, w⟩
    | .ok _ =>
      if args.use_slurm then
        ⟨some (String.intercalate " " args.argv), [], .ok (), w⟩
      else
        let t := runStages args.overwrite (!args.do_not_call) w
          (stageSpecs args config c)
        ⟨none, t.1, t.2.2, t.2.1⟩

/-- A concrete collaborator assignment for the closed instances. -/
def demoCollab : Collab where
  resolvable := fun _ => true
  logging_str := ""
  human2bytes := fun _ => 4096
  get_bowtie2_index_files := fun r => [r ++ ".1.bt2"]
  get_star_index_files := fun d => [d ++ "/SA"]
  get_bed := fun b n _ => b ++ "/" ++ n ++ ".bed"
  get_transcript_fasta := fun b n => b ++ "/" ++ n ++ ".fa"
  get_orfs := fun b n _ => b ++ "/" ++ n ++ ".orfs"
  get_exons := fun b n _ => b ++ "/" ++ n ++ ".exons"
  get_config_argument := fun _ _ => ""

/-- A concrete configuration holding all seven required keys. -/
def demoConfig : Config :=
  [("genome_base_path", .str "base"), ("genome_name", .str "g"),
   ("gtf", .str "g.gtf"), ("fasta", .str "g.fa"),
   ("ribosomal_fasta", .str "r.fa"), ("ribosomal_index", .str "ridx"),
   ("star_index", .str "sidx")]

/-- Concrete parsed arguments for a plain local run. -/
def demoArgs : Args where
  star_executable := "STAR"
  overwrite := false
  use_slurm := false
  do_not_call := false
  num_cpus := 2
  mem := "4G"
  argv := ["prepare-genome", "cfg.yaml"]

/-- A world in which every artifact of `demoConfig` already exists. -/
def demoWorld : World :=
  ⟨["ridx.1.bt2", "sidx/SA", "base/g.bed", "base/g.fa", "base/g.orfs",
    "base/g.exons"], fun _ => 0, fun _ fs => fs⟩

/-- C4: with `--use-slurm` set (and the startup checks passing), the
driver dispatches the joined original argument vector to the batch queue
and returns at once: no stage is ever submitted to the local executor. -/
theorem slurm_dispatch_short_circuits (args : Args) (config : Config)
    (c : Collab) (w : World)
    (hs : args.use_slurm = true)
    (hp : ∀ p ∈ programs args, c.resolvable p = true)
    (hk : ∀ k ∈ required_keys, config.hasKey k = true) :
    (main args config c w).dispatched = some (String.intercalate " " args.argv) ∧
    (main args config c w).submitted = [] ∧
    (main args config c w).result = .ok () := by
  have hfind : (programs args).find? (fun p => !c.resolvable p) = none := by
    rw [List.find?_eq_none]
    intro p hpmem
    simp [hp p hpmem]
  have hmiss : required_keys.filter (fun k => !config.hasKey k) = [] := by
    rw [List.filter_eq_nil_iff]
    intro k hkmem
    simp [hk k hkmem]
  simp [main, check_programs_exist, hfind, check_keys_exist, hmiss, hs]

/-- Witness for C4 at concrete arguments carrying `--use-slurm`. -/
theorem slurm_dispatch_short_circuits_witness :
    (main { demoArgs with use_slurm := true, argv :=
        ["prepare-genome", "cfg.yaml", "--use-slurm"] } demoConfig demoCollab
      demoWorld).dispatched
        = some (String.intercalate " "
            ["prepare-genome", "cfg.yaml", "--use-slurm"]) ∧
    (main { demoArgs with use_slurm := true, argv :=
        ["prepare-genome", "cfg.yaml", "--use-slurm"] } demoConfig demoCollab
      demoWorld).submitted = [] ∧
    (main { demoArgs with use_slurm := true, argv :=
        ["prepare-genome", "cfg.yaml", "--use-slurm"] } demoConfig demoCollab
      demoWorld).result = .ok () :=
  slurm_dispatch_short_circuits _ demoConfig demoCollab demoWorld rfl
    (by decide) (by decide)

/-- C7: the fixed seven-name program roster is checked once at startup;
when a listed program is unresolvable the driver fails with
`missingExecutableError` naming an unresolvable roster entry, before any
stage is submitted and before any remote dispatch. -/
theorem program_check_fails_fast (args : Args) (config : Config) (c : Collab)
    (w : World) (q : String)
    (hfind : (programs args).find? (fun p => !c.resolvable p) = some q) :
    programs args = ["extract-orfs", "bowtie2-build-s", "gffread",
      "intersectBed", "split-bed12-blocks", "gtf-to-bed12",
      args.star_executable] ∧
    (main args config c w).result = .error (.missingExecutableError q) ∧
    c.resolvable q = false ∧ q ∈ programs args ∧
    (main args config c w).submitted = [] ∧
    (main args config c w).dispatched = none := by
  refine ⟨rfl, ?_, ?_, List.mem_of_find?_eq_some hfind, ?_, ?_⟩
  · simp [main, check_programs_exist, hfind]
  · have h := List.find?_some hfind
    simpa using h
  · simp [main, check_programs_exist, hfind]
  · simp [main, check_programs_exist, hfind]

/-- Witness for C7: a path on which `gffread` is not resolvable. -/
theorem program_check_fails_fast_witness :
    programs demoArgs = ["extract-orfs", "bowtie2-build-s", "gffread",
      "intersectBed", "split-bed12-blocks", "gtf-to-bed12", "STAR"] ∧
    (main demoArgs demoConfig
        { demoCollab with resolvable := fun p => p != "gffread" }
        demoWorld).result = .error (.missingExecutableError "gffread") ∧
    (fun p => p != "gffread") "gffread" = false ∧
    "gffread" ∈ programs demoArgs ∧
    (main demoArgs demoConfig
        { demoCollab with resolvable := fun p => p != "gffread" }
        demoWorld).submitted = [] ∧
    (main demoArgs demoConfig
        { demoCollab with resolvable := fun p => p != "gffread" }
        demoWorld).dispatched = none :=
  program_check_fails_fast demoArgs demoConfig
    { demoCollab with resolvable := fun p => p != "gffread" } demoWorld
    "gffread" (by decide)

/-- C8: the configuration is validated against the seven required keys
before any stage runs, and the failure lists every absent key: with two
required keys absent, both appear in the reported list. -/
theorem key_check_reports_all_missing (args : Args) (config : Config)
    (c : Collab) (w : World) (k₁ k₂ : String)
    (h₁ : k₁ ∈ required_keys) (h₂ : k₂ ∈ required_keys)
    (hk₁ : config.hasKey k₁ = false) (hk₂ : config.hasKey k₂ = false)
    (hp : ∀ p ∈ programs args, c.resolvable p = true) :
    required_keys = ["genome_base_path", "genome_name", "gtf", "fasta",
      "ribosomal_fasta", "ribosomal_index", "star_index"] ∧
    (main args config c w).result = .error (.missingConfigKeyError
      (required_keys.filter (fun k => !config.hasKey k))) ∧
    k₁ ∈ required_keys.filter (fun k => !config.hasKey k) ∧
    k₂ ∈ required_keys.filter (fun k => !config.hasKey k) ∧
    (main args config c w).submitted = [] := by
  have hfind : (programs args).find? (fun p => !c.resolvable p) = none := by
    rw [List.find?_eq_none]
    intro p hpmem
    simp [hp p hpmem]
  have hm₁ : k₁ ∈ required_keys.filter (fun k => !config.hasKey k) :=
    List.mem_filter.mpr ⟨h₁, by simp [hk₁]⟩
  have hm₂ : k₂ ∈ required_keys.filter (fun k => !config.hasKey k) :=
    List.mem_filter.mpr ⟨h₂, by simp [hk₂]⟩
  have hne : (required_keys.filter (fun k => !config.hasKey k)).isEmpty
      = false := by
    cases hfil : required_keys.filter (fun k => !config.hasKey k) with
    | nil => rw [hfil] at hm₁; cases hm₁
    | cons a l => rfl
  refine ⟨rfl, ?_, hm₁, hm₂, ?_⟩
  · simp [main, check_programs_exist, hfind, check_keys_exist, hne]
  · simp [main, check_programs_exist, hfind, check_keys_exist, hne]

/-- Witness for C8: a configuration missing both `gtf` and `star_index`. -/
theorem key_check_reports_all_missing_witness :
    required_keys = ["genome_base_path", "genome_name", "gtf", "fasta",
      "ribosomal_fasta", "ribosomal_index", "star_index"] ∧
    (main demoArgs
        [("genome_base_path", .str "base"), ("genome_name", .str "g"),
         ("fasta", .str "g.fa"), ("ribosomal_fasta", .str "r.fa"),
         ("ribosomal_index", .str "ridx")] demoCollab demoWorld).result
      = .error (.missingConfigKeyError
          (required_keys.filter (fun k => !Config.hasKey
            [("genome_base_path", .str "base"), ("genome_name", .str "g"),
             ("fasta", .str "g.fa"), ("ribosomal_fasta", .str "r.fa"),
             ("ribosomal_index", .str "ridx")] k))) ∧
    "gtf" ∈ required_keys.filter (fun k => !Config.hasKey
      [("genome_base_path", .str "base"), ("genome_name", .str "g"),
       ("fasta", .str "g.fa"), ("ribosomal_fasta", .str "r.fa"),
       ("ribosomal_index", .str "ridx")] k) ∧
    "star_index" ∈ required_keys.filter (fun k => !Config.hasKey
      [("genome_base_path", .str "base"), ("genome_name", .str "g"),
       ("fasta", .str "g.fa"), ("ribosomal_fasta", .str "r.fa"),
       ("ribosomal_index", .str "ridx")] k) ∧
    (main demoArgs
        [("genome_base_path", .str "base"), ("genome_name", .str "g"),
         ("fasta", .str "g.fa"), ("ribosomal_fasta", .str "r.fa"),
         ("ribosomal_index", .str "ridx")] demoCollab demoWorld).submitted
      = [] :=
  key_check_reports_all_missing demoArgs _ demoCollab demoWorld "gtf"
    "star_index" (by decide) (by decide) (by decide) (by decide) (by decide)

/-- A data-level front match survives extending the string on the right. -/
theorem data_front_extend (p a b : String) (h : p.data <+: a.data) :
    p.data <+: (a ++ b).data := by
  obtain ⟨t, ht⟩ := h
  refine ⟨t ++ b.data, ?_⟩
  have hab : (a ++ b).data = a.data ++ b.data := rfl
  rw [hab, ← ht]
  exact (List.append_assoc _ _ _).symm

/-- When a run of a stage list succeeds, every stage of the list was
submitted to the executor, in order. -/
theorem runStages_ok_submits_all (overwrite call : Bool) (specs : List Stage) :
    ∀ w : World,
      (runStages overwrite call w specs).2.2 = .ok () →
      (runStages overwrite call w specs).1 = specs := by
  induction specs with
  | nil => intro w _; rfl
  | cons s rest ih =>
    intro w h
    rw [runStages] at h ⊢
    cases hr : (call_if_not_exists w s.cmd s.out_files s.in_files overwrite
        call).result with
    | error e =>
      rw [hr] at h
      exact absurd h (by simp)
    | ok o =>
      rw [hr] at h
      exact congrArg (List.cons s) (ih _ h)

/-- C5: in a local run that completes successfully, the driver submits to
the conditional executor exactly the six fixed stages, in order: rRNA
bowtie2 index, STAR genome index, GTF-to-BED12 conversion, transcript
FASTA extraction, ORF extraction, exon block splitting (witnessed by the
leading program token of each submitted command). -/
theorem stages_fixed_linear_order (args : Args) (config : Config) (c : Collab)
    (w : World)
    (hs : args.use_slurm = false)
    (hp : ∀ p ∈ programs args, c.resolvable p = true)
    (hk : ∀ k ∈ required_keys, config.hasKey k = true)
    (hok : (main args config c w).result = .ok ()) :
    (main args config c w).submitted = stageSpecs args config c ∧
    List.Forall₂ (fun (p : String) (s : Stage) => p.data <+: s.cmd.data)
      ["bowtie2-build-s", args.star_executable, "gtf-to-bed12", "gffread",
       "extract-orfs", "split-bed12-blocks"]
      (stageSpecs args config c) := by
  have hfind : (programs args).find? (fun p => !c.resolvable p) = none := by
    rw [List.find?_eq_none]
    intro p hpmem
    simp [hp p hpmem]
  have hmiss : required_keys.filter (fun k => !config.hasKey k) = [] := by
    rw [List.filter_eq_nil_iff]
    intro k hkmem
    simp [hk k hkmem]
  have hres : (runStages args.overwrite (!args.do_not_call) w
      (stageSpecs args config c)).2.2 = .ok () := by
    have h := hok
    simp only [main, check_programs_exist, hfind, check_keys_exist, hmiss,
      List.isEmpty_nil, if_true, hs, Bool.false_eq_true, if_false] at h
    exact h
  constructor
  · have hsub := runStages_ok_submits_all args.overwrite (!args.do_not_call)
      (stageSpecs args config c) w hres
    simp only [main, check_programs_exist, hfind, check_keys_exist, hmiss,
      List.isEmpty_nil, if_true, hs, Bool.false_eq_true, if_false]
    exact hsub
  · unfold stageSpecs
    refine List.Forall₂.cons ?_ (List.Forall₂.cons ?_ (List.Forall₂.cons ?_
      (List.Forall₂.cons ?_ (List.Forall₂.cons ?_
        (List.Forall₂.cons ?_ List.Forall₂.nil)))))
    · unfold rrna_index_cmd
      repeat apply data_front_extend
      decide
    · unfold star_index_cmd
      repeat apply data_front_extend
      exact List.prefix_refl _
    · unfold gtf_to_bed12_cmd
      repeat apply data_front_extend
      decide
    · unfold gffread_cmd
      repeat apply data_front_extend
      decide
    · unfold extract_orfs_cmd
      repeat apply data_front_extend
      decide
    · unfold split_bed12_blocks_cmd
      repeat apply data_front_extend
      decide

/-- Witness for C5: with every artifact of `demoConfig` already present,
the run succeeds and all six stages pass through the executor in order. -/
theorem stages_fixed_linear_order_witness :
    (main demoArgs demoConfig demoCollab demoWorld).submitted
      = stageSpecs demoArgs demoConfig demoCollab ∧
    List.Forall₂ (fun (p : String) (s : Stage) => p.data <+: s.cmd.data)
      ["bowtie2-build-s", "STAR", "gtf-to-bed12", "gffread",
       "extract-orfs", "split-bed12-blocks"]
      (stageSpecs demoArgs demoConfig demoCollab) :=
  stages_fixed_linear_order demoArgs demoConfig demoCollab demoWorld rfl
    (by decide) (by decide) rfl

/-- Strings carrying distinct front segments of equal length differ. -/
theorem ne_of_distinct_equal_fronts (p q s t : String)
    (hp : p.data <+: s.data) (hq : q.data <+: t.data)
    (hlen : p.data.length = q.data.length) (hpq : p.data ≠ q.data) :
    s ≠ t := by
  intro he
  apply hpq
  obtain ⟨tp, htp⟩ := hp
  obtain ⟨tq, htq⟩ := hq
  rw [he, ← htq] at htp
  exact (List.append_inj htp hlen).1

/-- C6: the transcript-FASTA stage submits the `gffread` command: the
fourth submitted stage carries the gffread command for the transcript
FASTA output; that command differs from the `extract-bed-sequences`
command constructed at lines 109-110, whose executor call is commented
out at lines 115-116; and the disabled command is submitted by no stage. -/
theorem transcript_fasta_stage_uses_gffread (args : Args) (config : Config)
    (c : Collab) (hstar : args.star_executable = "STAR") :
    (stageSpecs args config c).get? 3
      = some ⟨gffread_cmd config c, [transcript_fasta config c],
          [config.getStr "gtf", config.getStr "fasta"]⟩ ∧
    gffread_cmd config c ≠ extract_bed_sequences_cmd config c ∧
    extract_bed_sequences_cmd config c
      ∉ (stageSpecs args config c).map Stage.cmd := by
  have hex2 : ("ex" : String).data <+: (extract_bed_sequences_cmd config c).data := by
    unfold extract_bed_sequences_cmd
    repeat apply data_front_extend
    decide
  have hex9 : ("extract-b" : String).data
      <+: (extract_bed_sequences_cmd config c).data := by
    unfold extract_bed_sequences_cmd
    repeat apply data_front_extend
    decide
  have hgf : ("gf" : String).data <+: (gffread_cmd config c).data := by
    unfold gffread_cmd
    repeat apply data_front_extend
    decide
  have hbo : ("bo" : String).data <+: (rrna_index_cmd config).data := by
    unfold rrna_index_cmd
    repeat apply data_front_extend
    decide
  have hst : ("ST" : String).data <+: (star_index_cmd args config c).data := by
    unfold star_index_cmd
    rw [hstar]
    repeat apply data_front_extend
    decide
  have hgt : ("gt" : String).data <+: (gtf_to_bed12_cmd args config c).data := by
    unfold gtf_to_bed12_cmd
    repeat apply data_front_extend
    decide
  have heo : ("extract-o" : String).data <+: (extract_orfs_cmd args config c).data := by
    unfold extract_orfs_cmd
    repeat apply data_front_extend
    decide
  have hsp : ("sp" : String).data <+: (split_bed12_blocks_cmd args config c).data := by
    unfold split_bed12_blocks_cmd
    repeat apply data_front_extend
    decide
  refine ⟨rfl, ?_, ?_⟩
  · exact ne_of_distinct_equal_fronts "gf" "ex" _ _ hgf hex2 (by decide) (by decide)
  · intro hmem
    simp only [stageSpecs, List.map_cons, List.map_nil, List.mem_cons,
      List.not_mem_nil, or_false] at hmem
    rcases hmem with h | h | h | h | h | h
    · exact ne_of_distinct_equal_fronts "ex" "bo" _ _ hex2 hbo
        (by decide) (by decide) h
    · exact ne_of_distinct_equal_fronts "ex" "ST" _ _ hex2 hst
        (by decide) (by decide) h
    · exact ne_of_distinct_equal_fronts "ex" "gt" _ _ hex2 hgt
        (by decide) (by decide) h
    · exact ne_of_distinct_equal_fronts "ex" "gf" _ _ hex2 hgf
        (by decide) (by decide) h
    · exact ne_of_distinct_equal_fronts "extract-b" "extract-o" _ _ hex9 heo
        (by decide) (by decide) h
    · exact ne_of_distinct_equal_fronts "ex" "sp" _ _ hex2 hsp
        (by decide) (by decide) h

/-- Witness for C6 at the concrete demo instances. -/
theorem transcript_fasta_stage_uses_gffread_witness :
    (stageSpecs demoArgs demoConfig demoCollab).get? 3
      = some ⟨gffread_cmd demoConfig demoCollab,
          [transcript_fasta demoConfig demoCollab],
          [Config.getStr demoConfig "gtf", Config.getStr demoConfig "fasta"]⟩ ∧
    gffread_cmd demoConfig demoCollab
      ≠ extract_bed_sequences_cmd demoConfig demoCollab ∧
    extract_bed_sequences_cmd demoConfig demoCollab
      ∉ (stageSpecs demoArgs demoConfig demoCollab).map Stage.cmd :=
  transcript_fasta_stage_uses_gffread demoArgs demoConfig demoCollab rfl

/-- C9: the GTF-to-BED12 stage embeds `<star_index>/chrName.txt` in its
command via `--chr-name-file`, yet declares only the GTF as input and only
the transcript BED as output, so the skip decision of its gating depends
only on the transcript BED's existence — two filesystems agreeing on the
transcript BED (whatever they say about the STAR index artifact) yield the
same decision. -/
theorem bed12_gating_ignores_star_artifact (args : Args) (config : Config)
    (c : Collab) (fs₁ fs₂ : List String) (ow : Bool)
    (hagree : fs₁.contains (transcript_bed config c)
        = fs₂.contains (transcript_bed config c)) :
    (stageSpecs args config c).get? 2
      = some ⟨gtf_to_bed12_cmd args config c, [transcript_bed config c],
          [config.getStr "gtf"]⟩ ∧
    (∃ pre post, gtf_to_bed12_cmd args config c
        = pre ++ ("--chr-name-file "
            ++ os_path_join (config.getStr "star_index") "chrName.txt") ++ post) ∧
    skip_decision fs₁ [transcript_bed config c] ow
      = skip_decision fs₂ [transcript_bed config c] ow := by
  refine ⟨rfl, ?_, ?_⟩
  · refine ⟨"gtf-to-bed12 " ++ config.getStr "gtf" ++ " " ++ transcript_bed config c
      ++ " --num-cpus " ++ toString args.num_cpus ++ " ",
      " " ++ c.logging_str, ?_⟩
    unfold gtf_to_bed12_cmd chr_name_str chr_name_file
    simp [String.append_assoc]
  · simp only [skip_decision, List.all_cons, List.all_nil, Bool.and_true, hagree]

/-- Witness for C9: one filesystem without the chrName artifact, one with
it; both hold the transcript BED and the decision agrees. -/
theorem bed12_gating_ignores_star_artifact_witness :
    (stageSpecs demoArgs demoConfig demoCollab).get? 2
      = some ⟨gtf_to_bed12_cmd demoArgs demoConfig demoCollab,
          [transcript_bed demoConfig demoCollab],
          [Config.getStr demoConfig "gtf"]⟩ ∧
    (∃ pre post, gtf_to_bed12_cmd demoArgs demoConfig demoCollab
        = pre ++ ("--chr-name-file "
            ++ os_path_join (Config.getStr demoConfig "star_index")
                "chrName.txt") ++ post) ∧
    skip_decision ["base/g.bed"] [transcript_bed demoConfig demoCollab] false
      = skip_decision ["base/g.bed", "sidx/chrName.txt"]
          [transcript_bed demoConfig demoCollab] false :=
  bed12_gating_ignores_star_artifact demoArgs demoConfig demoCollab
    ["base/g.bed"] ["base/g.bed", "sidx/chrName.txt"] false (by decide)

/-- A string extended on the right by a non-empty string ends with the
latter's final character. -/
theorem last_of_append (a b : String) (cb : Char)
    (hb : b.data.reverse.head? = some cb) :
    (a ++ b).data.reverse.head? = some cb := by
  rw [show (a ++ b).data = a.data ++ b.data from rfl, List.reverse_append]
  cases hbd : b.data.reverse with
  | nil => rw [hbd] at hb; exact absurd hb (by simp)
  | cons cr l =>
    rw [hbd] at hb
    rw [List.cons_append]
    exact hb

/-- Appending the empty string is the identity. -/
theorem append_empty_str (s : String) : s ++ "" = s :=
  String.ext (by rw [show (s ++ "").data = s.data ++ [] from rfl, List.append_nil])

/-- C10: the `--ignore-parsing-errors` flag is appended to the
extract-orfs command exactly when the key `ignore_parsing_errors` is
present in the configuration mapping; the stored value (even `false` or
null) is never consulted. -/
theorem ignore_parsing_flag_iff_key_present (args : Args) (config : Config)
    (c : Collab) :
    (∃ pre, extract_orfs_cmd args config c = pre ++ "--ignore-parsing-errors")
      ↔ config.hasKey "ignore_parsing_errors" = true := by
  constructor
  · rintro ⟨pre, hpre⟩
    cases hk : config.hasKey "ignore_parsing_errors" with
    | true => rfl
    | false =>
      exfalso
      unfold extract_orfs_cmd ignore_parsing_errors_str at hpre
      rw [hk] at hpre
      simp only [Bool.false_eq_true, if_false] at hpre
      rw [append_empty_str] at hpre
      have hcontr : (some ' ' : Option Char) = some 's' := by
        calc (some ' ' : Option Char)
            = (pre ++ "--ignore-parsing-errors").data.reverse.head? := by
              rw [← hpre]; exact (last_of_append _ " " ' ' (by decide)).symm
          _ = some 's' := last_of_append _ _ 's' (by decide)
      exact absurd hcontr (by decide)
  · intro hk
    refine ⟨"extract-orfs " ++ transcript_fasta config c ++ " "
      ++ orfs_genomic config c ++ " " ++ c.logging_str ++ " --num-cpus "
      ++ toString args.num_cpus
      ++ " " ++ c.get_config_argument config "start_codons"
      ++ " " ++ c.get_config_argument config "stop_codons"
      ++ " " ++ c.get_config_argument config "novel_id_re" ++ " ", ?_⟩
    unfold extract_orfs_cmd ignore_parsing_errors_str
    rw [hk]
    simp

end PrepareGenome
